import Mathlib

/-!
Shallow embedding of the metal-stack/rethinkdb-exporter scrape-and-classify
pipeline (src/exporter/collect.go), used to check the specification's claims.

Float counters are modelled as rationals (no claim depends on floating-point
rounding; all example values are small integers, where Go float64 arithmetic
is exact).  The prometheus output channel is modelled as a list of emitted
samples; the errgroup of enrichment goroutines is modelled as an explicit
list of pending (database, table) tasks together with a sequential model of
waiting on them.
-/

namespace RethinkdbExporter

/-- The metric descriptor families of the exporter, one constructor per
`prometheus.Desc` field of the `metrics` struct in the source. -/
inductive MetricDesc where
  | clusterClientConnections
  | clusterDocsPerSecond
  | serverClientConnections
  | serverQueriesPerSecond
  | serverDocsPerSecond
  | tableDocsPerSecond
  | tableRowsCount
  | tableReplicaDocsPerSecond
  | tableReplicaCacheBytes
  | tableReplicaIOBytesPerSec
  | tableReplicaDataBytes
  | scrapeLatency
  | scrapeErrors
  deriving DecidableEq, Repr

/-- One emitted gauge sample: descriptor, value, ordered label values
(the variadic label arguments of `prometheus.MustNewConstMetric`). -/
structure Metric where
  desc : MetricDesc
  value : ℚ
  labels : List String
  deriving DecidableEq, Repr

/-- Modelled from the spec: the `operation` label value for reads
(`operation{read,written}` in the descriptor table); the constant's defining
file is not in the provided sources. -/
def readOperation : String := "read"

/-- Modelled from the spec: the `operation` label value for writes. -/
def writtenOperation : String := "written"

/-- `queryEngine` struct of collect.go: instantaneous query-engine rates. -/
structure queryEngine where
  ClientConnections : ℚ
  QPS : ℚ
  ReadDocsPerSec : ℚ
  WrittenDocsPerSec : ℚ
  deriving DecidableEq, Repr

/-- The nested `cache` field of `storageEngine`. -/
structure cacheStats where
  InUseBytes : ℚ
  deriving DecidableEq, Repr

/-- The nested `space_usage` field of `storageEngine.disk`. -/
structure spaceUsageStats where
  DataBytes : ℚ
  deriving DecidableEq, Repr

/-- The nested `disk` field of `storageEngine`. -/
structure diskStats where
  ReadBytesPerSec : ℚ
  WrittenBytesPerSec : ℚ
  SpaceUsage : spaceUsageStats
  deriving DecidableEq, Repr

/-- `storageEngine` struct of collect.go. -/
structure storageEngine where
  Cache : cacheStats
  Disk : diskStats
  deriving DecidableEq, Repr

/-- `stat` struct of collect.go: one decoded row of the statistics feed. -/
structure stat where
  ID : List String
  Server : String
  Database : String
  Table : String
  QueryEngine : queryEngine
  StorageEngine : storageEngine
  deriving DecidableEq, Repr

/-- `info` struct of collect.go: per-shard-replica document-count estimates. -/
structure info where
  DocCountEstimates : List ℚ
  deriving DecidableEq, Repr

/-- The part of the `RethinkdbExporter` struct the collection logic reads:
whether table row-count collection is enabled (`e.metrics.tableRowsCount`
is non-nil exactly when the exporter was constructed with
`collectTableStats = true`). -/
structure ExporterCfg where
  collectTableStats : Bool
  deriving DecidableEq, Repr

/-- `processClusterStat`: the samples sent for a cluster record, in send
order. -/
def processClusterStat (s : stat) : List Metric :=
  [⟨.clusterClientConnections, s.QueryEngine.ClientConnections, []⟩,
   ⟨.clusterDocsPerSecond, s.QueryEngine.ReadDocsPerSec, [readOperation]⟩,
   ⟨.clusterDocsPerSecond, s.QueryEngine.WrittenDocsPerSec, [writtenOperation]⟩]

/-- `processServerStat`: the samples sent for a server record, in send order.
Note: the source feeds `stat.QueryEngine.ReadDocsPerSec` (not `QPS`) to the
`serverQueriesPerSecond` descriptor; the embedding reproduces that line
faithfully. -/
def processServerStat (s : stat) : List Metric :=
  [⟨.serverClientConnections, s.QueryEngine.ClientConnections, [s.Server]⟩,
   ⟨.serverDocsPerSecond, s.QueryEngine.ReadDocsPerSec, [s.Server, readOperation]⟩,
   ⟨.serverDocsPerSecond, s.QueryEngine.WrittenDocsPerSec, [s.Server, writtenOperation]⟩,
   ⟨.serverQueriesPerSecond, s.QueryEngine.ReadDocsPerSec, [s.Server]⟩]

/-- An enrichment task enqueued on the errgroup: the `(dbName, tableName)`
pair captured by the goroutine closure in `processTableStat`. -/
abbrev EnrichTask := String × String

/-- `processTableStat`: the samples sent synchronously for a table record,
plus the enrichment task spawned (at most one, only when row-count
collection is enabled). -/
def processTableStat (e : ExporterCfg) (s : stat) : List Metric × List EnrichTask :=
  ([⟨.tableDocsPerSecond, s.QueryEngine.ReadDocsPerSec, [s.Database, s.Table, readOperation]⟩,
    ⟨.tableDocsPerSecond, s.QueryEngine.WrittenDocsPerSec, [s.Database, s.Table, writtenOperation]⟩],
   if e.collectTableStats then [(s.Database, s.Table)] else [])

/-- `processTableServerStat`: the samples sent for a table_server record, in
send order. -/
def processTableServerStat (s : stat) : List Metric :=
  [⟨.tableReplicaDocsPerSecond, s.QueryEngine.ReadDocsPerSec, [s.Database, s.Table, s.Server, readOperation]⟩,
   ⟨.tableReplicaDocsPerSecond, s.QueryEngine.WrittenDocsPerSec, [s.Database, s.Table, s.Server, writtenOperation]⟩,
   ⟨.tableReplicaCacheBytes, s.StorageEngine.Cache.InUseBytes, [s.Database, s.Table, s.Server]⟩,
   ⟨.tableReplicaIOBytesPerSec, s.StorageEngine.Disk.ReadBytesPerSec, [s.Database, s.Table, s.Server, readOperation]⟩,
   ⟨.tableReplicaIOBytesPerSec, s.StorageEngine.Disk.WrittenBytesPerSec, [s.Database, s.Table, s.Server, writtenOperation]⟩,
   ⟨.tableReplicaDataBytes, s.StorageEngine.Disk.SpaceUsage.DataBytes, [s.Database, s.Table, s.Server]⟩]

/-- `processStat`: dispatch on the first identity-tuple element; `.error`
models the returned Go error (empty id, or unrecognized kind). On success it
returns the samples sent and the enrichment tasks spawned. -/
def processStat (e : ExporterCfg) (s : stat) : Except String (List Metric × List EnrichTask) :=
  match s.ID with
  | [] => .error "unexpected empty stat id"
  | kind :: _ =>
    if kind = "cluster" then .ok (processClusterStat s, [])
    else if kind = "server" then .ok (processServerStat s, [])
    else if kind = "table" then .ok (processTableStat e s)
    else if kind = "table_server" then .ok (processTableServerStat s, [])
    else .error ("unexpected stat id: " ++ kind)

/-- One step of the cursor stream, as observed by the `for cur.Next(&stat)`
loop: either a decoded record with `cur.Err() == nil`, or a cursor error
observed at this iteration (the fatal-to-stream case). -/
inductive CursorItem where
  | ok (s : stat)
  | err
  deriving DecidableEq, Repr

/-- The opened cursor: whether `cur.Err()` is already non-nil right after
`Run` returns, and the stream of subsequent iterations. -/
structure Cursor where
  initialErr : Bool
  items : List CursorItem
  deriving DecidableEq, Repr

/-- The database collaborator as the collection cycle sees it: the base
statistics query (`.error` models `Run` returning an error) and the
per-table `Info()` point lookup used by enrichment
(`.error` models a lookup failure, `.ok` the decoded `doc_count_estimates`). -/
structure DBConn where
  runStats : Except Unit Cursor
  tableInfo : String → String → Except Unit (List ℚ)

/-- One enrichment goroutine body: on lookup success, the `table_rows_count`
sample it sends (value computed by the `sum := 0.0; for ... sum += e` loop,
i.e. a left fold); on failure, the error it returns to the errgroup. -/
def runTask (db : DBConn) (t : EnrichTask) : Except Unit Metric :=
  match db.tableInfo t.1 t.2 with
  | .error e => .error e
  | .ok ests => .ok ⟨.tableRowsCount, ests.foldl (· + ·) 0, [t.1, t.2]⟩

/-- Whether one enrichment task returns a non-nil error to the errgroup. -/
def taskFailed (db : DBConn) (t : EnrichTask) : Bool :=
  match runTask db t with
  | .error _ => true
  | .ok _ => false

/-- `wg.Wait()` together with the goroutines it supervises: every spawned
task runs to completion, each successful one sends its sample, and `Wait`
returns a non-nil error iff at least one task failed (errgroup keeps only
the first error, so the caller sees one error however many tasks failed). -/
def wgWait (db : DBConn) (tasks : List EnrichTask) : Bool × List Metric :=
  (tasks.any (taskFailed db),
   tasks.filterMap fun t => (runTask db t).toOption)

/-- The `for cur.Next(&stat)` loop of `collectRethinkStats`: returns the
error count accumulated by the loop, the samples sent, the enrichment tasks
spawned, and whether the loop exited via the in-loop `return errcount`
(cursor error), which skips `wg.Wait()`. -/
def streamLoop (e : ExporterCfg) (items : List CursorItem) :
    ℕ × List Metric × List EnrichTask × Bool :=
  match items with
  | [] => (0, [], [], false)
  | .err :: _ => (1, [], [], true)
  | .ok s :: rest =>
    match processStat e s with
    | .error _ =>
      let r := streamLoop e rest
      (r.1 + 1, r.2.1, r.2.2.1, r.2.2.2)
    | .ok (ms, ts) =>
      let r := streamLoop e rest
      (r.1, ms ++ r.2.1, ts ++ r.2.2.1, r.2.2.2)

/-- `collectRethinkStats`: returns the error count, the samples sent during
the cycle, and the enrichment tasks that were spawned but never awaited
(non-empty exactly when the in-loop cursor-error `return` skipped
`wg.Wait()`; always empty on the paths that reach `wg.Wait()`). -/
def collectRethinkStats (e : ExporterCfg) (db : DBConn) :
    ℕ × List Metric × List EnrichTask :=
  match db.runStats with
  | .error _ => (1, [], [])
  | .ok cur =>
    if cur.initialErr then (1, [], [])
    else
      let r := streamLoop e cur.items
      if r.2.2.2 then (r.1, r.2.1, r.2.2.1)
      else
        let w := wgWait db r.2.2.1
        (if w.1 then r.1 + 1 else r.1, r.2.1 ++ w.2, [])

/-- `Collect`: runs one cycle and then sends the two meta-metrics, errors
first, latency second. `elapsed` is the wall-clock duration measured by
`time.Since(start)`, in seconds. -/
def Collect (e : ExporterCfg) (db : DBConn) (elapsed : ℚ) : List Metric :=
  let r := collectRethinkStats e db
  r.2.1 ++ [⟨.scrapeErrors, (r.1 : ℚ), []⟩, ⟨.scrapeLatency, elapsed, []⟩]

/-! Concrete fixtures used to instantiate the theorems below. -/

/-- Sample query-engine counters: 2 connections, 7 queries/sec, 3 read
docs/sec, 4 written docs/sec (chosen so that `QPS ≠ ReadDocsPerSec`). -/
def qe0 : queryEngine := ⟨2, 7, 3, 4⟩

/-- Sample storage-engine counters. -/
def se0 : storageEngine := ⟨⟨10⟩, ⟨20, 30, ⟨40⟩⟩⟩

/-- A server-kind record for server `srv1`. -/
def statServer : stat := ⟨["server", "sid"], "srv1", "", "", qe0, se0⟩

/-- A cluster-kind record. -/
def statCluster : stat := ⟨["cluster"], "", "", "", qe0, se0⟩

/-- A record with an unrecognized identity kind. -/
def statBogus : stat := ⟨["bogus"], "", "", "", qe0, se0⟩

/-- Table-kind records for three distinct tables. -/
def statTable1 : stat := ⟨["table", "tid1"], "", "db1", "t1", qe0, se0⟩

/-- Second table-kind record. -/
def statTable2 : stat := ⟨["table", "tid2"], "", "db2", "t2", qe0, se0⟩

/-- Third table-kind record. -/
def statTable3 : stat := ⟨["table", "tid3"], "", "db3", "t3", qe0, se0⟩

/-- Exporter configured with row-count collection enabled. -/
def cfgT : ExporterCfg := ⟨true⟩

/-- Exporter configured with row-count collection disabled. -/
def cfgF : ExporterCfg := ⟨false⟩

/-- A database whose base statistics query fails to open. -/
def dbOpenFail : DBConn := ⟨.error (), fun _ _ => .error ()⟩

/-- A database whose base query opens and yields zero records. -/
def dbEmpty : DBConn := ⟨.ok ⟨false, []⟩, fun _ _ => .error ()⟩

/-- A database whose stream yields one table record and then a cursor
error, and whose enrichment lookup always fails. -/
def dbCursorErr : DBConn :=
  ⟨.ok ⟨false, [.ok statTable1, .err]⟩, fun _ _ => .error ()⟩

/-- The cursor of `dbTwoFailOneOk`: three table records, stream ends
normally. -/
def curTwoFail : Cursor :=
  ⟨false, [.ok statTable1, .ok statTable2, .ok statTable3]⟩

/-- A database where the enrichment lookups for `db1.t1` and `db2.t2` fail
while the lookup for `db3.t3` succeeds with estimates `[1, 2]`. -/
def dbTwoFailOneOk : DBConn :=
  ⟨.ok curTwoFail, fun d _ => if d = "db3" then .ok [1, 2] else .error ()⟩

/-- A database whose enrichment lookup returns estimates `[3, 5, 4]` for
every table. -/
def dbEstimates : DBConn := ⟨.ok ⟨false, []⟩, fun _ _ => .ok [3, 5, 4]⟩

/-! Helper lemmas shared by the claim theorems. -/

/-- Dropping the last two elements of a list extended by two elements
recovers the original list. -/
theorem dropLast_two_append (xs : List Metric) (a b : Metric) :
    (xs ++ [a, b]).dropLast.dropLast = xs := by
  have h : xs ++ [a, b] = (xs ++ [a]) ++ [b] := by simp
  rw [h, List.dropLast_concat, List.dropLast_concat]

/-- No sample sent for a cluster record uses a meta-metric descriptor. -/
theorem processClusterStat_no_meta (s : stat) :
    ∀ m ∈ processClusterStat s,
      m.desc ≠ MetricDesc.scrapeErrors ∧ m.desc ≠ MetricDesc.scrapeLatency := by
  intro m hm
  simp only [processClusterStat, List.mem_cons, List.not_mem_nil, or_false] at hm
  rcases hm with h1 | h1 | h1 <;> subst h1 <;> exact ⟨by simp, by simp⟩

/-- No sample sent for a server record uses a meta-metric descriptor. -/
theorem processServerStat_no_meta (s : stat) :
    ∀ m ∈ processServerStat s,
      m.desc ≠ MetricDesc.scrapeErrors ∧ m.desc ≠ MetricDesc.scrapeLatency := by
  intro m hm
  simp only [processServerStat, List.mem_cons, List.not_mem_nil, or_false] at hm
  rcases hm with h1 | h1 | h1 | h1 <;> subst h1 <;> exact ⟨by simp, by simp⟩

/-- No sample sent synchronously for a table record uses a meta-metric
descriptor. -/
theorem processTableStat_no_meta (e : ExporterCfg) (s : stat) :
    ∀ m ∈ (processTableStat e s).1,
      m.desc ≠ MetricDesc.scrapeErrors ∧ m.desc ≠ MetricDesc.scrapeLatency := by
  intro m hm
  simp only [processTableStat, List.mem_cons, List.not_mem_nil, or_false] at hm
  rcases hm with h1 | h1 <;> subst h1 <;> exact ⟨by simp, by simp⟩

/-- No sample sent for a table_server record uses a meta-metric
descriptor. -/
theorem processTableServerStat_no_meta (s : stat) :
    ∀ m ∈ processTableServerStat s,
      m.desc ≠ MetricDesc.scrapeErrors ∧ m.desc ≠ MetricDesc.scrapeLatency := by
  intro m hm
  simp only [processTableServerStat, List.mem_cons, List.not_mem_nil, or_false] at hm
  rcases hm with h1 | h1 | h1 | h1 | h1 | h1 <;> subst h1 <;> exact ⟨by simp, by simp⟩

/-- No sample emitted by the classifier uses a meta-metric descriptor. -/
theorem processStat_no_meta (e : ExporterCfg) (s : stat) (ms : List Metric)
    (ts : List EnrichTask) (h : processStat e s = .ok (ms, ts)) :
    ∀ m ∈ ms, m.desc ≠ MetricDesc.scrapeErrors ∧ m.desc ≠ MetricDesc.scrapeLatency := by
  unfold processStat at h
  rcases hs : s.ID with _ | ⟨hd, tl⟩ <;> rw [hs] at h
  · exact absurd h (by simp)
  · dsimp only at h
    split_ifs at h <;>
      simp only [Except.ok.injEq, Prod.mk.injEq] at h
    · obtain ⟨h1, h2⟩ := h
      subst h1
      exact processClusterStat_no_meta s
    · obtain ⟨h1, h2⟩ := h
      subst h1
      exact processServerStat_no_meta s
    · have h1 : (processTableStat e s).1 = ms := congrArg Prod.fst h
      rw [← h1]
      exact processTableStat_no_meta e s
    · obtain ⟨h1, h2⟩ := h
      subst h1
      exact processTableServerStat_no_meta s

/-- No sample emitted by the streaming loop uses a meta-metric
descriptor. -/
theorem streamLoop_no_meta (e : ExporterCfg) (items : List CursorItem) :
    ∀ m ∈ (streamLoop e items).2.1,
      m.desc ≠ MetricDesc.scrapeErrors ∧ m.desc ≠ MetricDesc.scrapeLatency := by
  induction items with
  | nil => simp [streamLoop]
  | cons it rest ih =>
    cases it with
    | err => simp [streamLoop]
    | ok s =>
      rcases hps : processStat e s with msg | ⟨ms, ts⟩
      · simpa [streamLoop, hps] using ih
      · intro m hm
        simp only [streamLoop, hps, List.mem_append] at hm
        rcases hm with hm | hm
        · exact processStat_no_meta e s ms ts hps m hm
        · exact ih m hm

/-- No sample emitted by the enrichment tasks uses a meta-metric
descriptor. -/
theorem wgWait_no_meta (db : DBConn) (ts : List EnrichTask) :
    ∀ m ∈ (wgWait db ts).2,
      m.desc ≠ MetricDesc.scrapeErrors ∧ m.desc ≠ MetricDesc.scrapeLatency := by
  intro m hm
  simp only [wgWait, List.mem_filterMap] at hm
  obtain ⟨t, ht, hrt⟩ := hm
  unfold runTask at hrt
  rcases hti : db.tableInfo t.1 t.2 with u | ests <;> rw [hti] at hrt <;>
    simp only [Except.toOption] at hrt
  · exact absurd hrt (by simp)
  · have hm2 : (⟨.tableRowsCount, ests.foldl (· + ·) 0, [t.1, t.2]⟩ : Metric) = m :=
      Option.some.inj hrt
    subst hm2
    exact ⟨by simp, by simp⟩

/-- No sample emitted during a collection cycle (before the meta-metrics
are appended by `Collect`) uses a meta-metric descriptor. -/
theorem collectRethinkStats_no_meta (e : ExporterCfg) (db : DBConn) :
    ∀ m ∈ (collectRethinkStats e db).2.1,
      m.desc ≠ MetricDesc.scrapeErrors ∧ m.desc ≠ MetricDesc.scrapeLatency := by
  unfold collectRethinkStats
  rcases hrs : db.runStats with u | cur
  · simp
  · dsimp only
    rcases hie : cur.initialErr with _ | _
    · simp only [Bool.false_eq_true, if_false]
      rcases hearly : (streamLoop e cur.items).2.2.2 with _ | _
      · simp only [Bool.false_eq_true, if_false]
        intro m hm
        rcases List.mem_append.mp hm with hm2 | hm2
        · exact streamLoop_no_meta e cur.items m hm2
        · exact wgWait_no_meta db _ m hm2
      · simp only [if_true]
        exact streamLoop_no_meta e cur.items
    · simp

/-! The claim theorems. -/

/-- Claim C1 (code bug): for the server record `statServer`, whose
queries-per-sec counter is 7 and whose read-docs-per-sec counter is 3, the
sample emitted on the `serverQueriesPerSecond` descriptor carries value 3 —
the read-docs counter, not the queries-per-sec counter.  The source line
`ch <- ... e.metrics.serverQueriesPerSecond ... stat.QueryEngine.ReadDocsPerSec`
feeds the wrong field; the struct's `QPS` field is never read anywhere. -/
theorem server_queries_per_sec_uses_read_docs :
    statServer.QueryEngine.QPS = 7 ∧
    statServer.QueryEngine.ReadDocsPerSec = 3 ∧
    (processServerStat statServer).filter
        (fun m => m.desc == MetricDesc.serverQueriesPerSecond) =
      [⟨.serverQueriesPerSecond, 3, ["srv1"]⟩] ∧
    (3 : ℚ) ≠ 7 := by
  refine ⟨rfl, rfl, rfl, by norm_num⟩

/-- Claim C2 (code bug): on the stream [table record, cursor error] with a
failing enrichment lookup, the cycle returns with the spawned enrichment
task left unawaited (the in-loop `return errcount` skips `wg.Wait()`), the
error count is 1 (the cursor error only — the spawned task's failure is
never accumulated), and the meta-metrics are emitted anyway.  The claim —
that the cycle still blocks on every spawned task and accumulates its
errors before the meta-metrics — requires the unawaited-task list to be
empty and the count to include the task failure. -/
theorem cursor_error_skips_enrichment_wait :
    (collectRethinkStats cfgT dbCursorErr).2.2 = [("db1", "t1")] ∧
    (collectRethinkStats cfgT dbCursorErr).1 = 1 ∧
    taskFailed dbCursorErr ("db1", "t1") = true ∧
    Collect cfgT dbCursorErr 0 =
      (processTableStat cfgT statTable1).1 ++
        [⟨.scrapeErrors, 1, []⟩, ⟨.scrapeLatency, 0, []⟩] := by
  refine ⟨rfl, rfl, rfl, ?_⟩
  have hc : collectRethinkStats cfgT dbCursorErr =
      (1, (processTableStat cfgT statTable1).1, [("db1", "t1")]) := rfl
  unfold Collect
  rw [hc]
  norm_num

/-- Claim C3 (counterexample): with the enrichment lookups for two tables
failing (k = 2) and one succeeding, the cycle's error count is 1, not 2 —
`errgroup.Wait` surfaces a single error however many tasks failed — while
the succeeding table's row-count sample is still emitted. -/
theorem two_failed_fetches_count_single_error :
    (collectRethinkStats cfgT dbTwoFailOneOk).1 = 1 ∧
    (collectRethinkStats cfgT dbTwoFailOneOk).1 ≠ 2 ∧
    taskFailed dbTwoFailOneOk ("db1", "t1") = true ∧
    taskFailed dbTwoFailOneOk ("db2", "t2") = true ∧
    taskFailed dbTwoFailOneOk ("db3", "t3") = false ∧
    (collectRethinkStats cfgT dbTwoFailOneOk).2.1.filter
        (fun m => m.desc == MetricDesc.tableRowsCount) =
      [⟨.tableRowsCount, ([1, 2] : List ℚ).foldl (· + ·) 0, ["db3", "t3"]⟩] ∧
    ([1, 2] : List ℚ).foldl (· + ·) 0 = 3 := by
  refine ⟨rfl, by decide, rfl, rfl, rfl, rfl, by norm_num⟩

/-- Claim C3 (amended): when at least one spawned enrichment task fails and
the stream ends normally, the cycle completes, every successful task's
sample is emitted, no task is left unawaited, and the error count includes
exactly one contribution from the failed fetches in total. -/
theorem enrichment_failures_one_contribution (e : ExporterCfg) (db : DBConn) (cur : Cursor)
    (h : db.runStats = .ok cur) (h0 : cur.initialErr = false)
    (hne : (streamLoop e cur.items).2.2.2 = false)
    (hf : ∃ t ∈ (streamLoop e cur.items).2.2.1, taskFailed db t = true) :
    (collectRethinkStats e db).1 = (streamLoop e cur.items).1 + 1 ∧
    (collectRethinkStats e db).2.1 =
      (streamLoop e cur.items).2.1 ++
        (streamLoop e cur.items).2.2.1.filterMap (fun t => (runTask db t).toOption) ∧
    (collectRethinkStats e db).2.2 = [] := by
  have hany : ((streamLoop e cur.items).2.2.1).any (taskFailed db) = true :=
    List.any_eq_true.mpr hf
  have hcol : collectRethinkStats e db =
      ((streamLoop e cur.items).1 + 1,
       (streamLoop e cur.items).2.1 ++
         (streamLoop e cur.items).2.2.1.filterMap (fun t => (runTask db t).toOption),
       []) := by
    unfold collectRethinkStats
    rw [h]
    simp [h0, hne, wgWait, hany]
  rw [hcol]
  exact ⟨rfl, rfl, rfl⟩

/-- Witness for the amended claim C3, at the three-table fixture with two
failing lookups and one succeeding one. -/
theorem enrichment_failures_one_contribution_witness :
    (collectRethinkStats cfgT dbTwoFailOneOk).1 = (streamLoop cfgT curTwoFail.items).1 + 1 ∧
    (collectRethinkStats cfgT dbTwoFailOneOk).2.1 =
      (streamLoop cfgT curTwoFail.items).2.1 ++
        (streamLoop cfgT curTwoFail.items).2.2.1.filterMap
          (fun t => (runTask dbTwoFailOneOk t).toOption) ∧
    (collectRethinkStats cfgT dbTwoFailOneOk).2.2 = [] :=
  enrichment_failures_one_contribution cfgT dbTwoFailOneOk curTwoFail rfl rfl rfl
    ⟨("db1", "t1"), by decide, rfl⟩

/-- Claim C4: if the base statistics query fails to open, the cycle
produces error count exactly one, no data samples and no enrichment tasks,
and `Collect` emits exactly the two meta-metrics. -/
theorem base_query_open_failure (e : ExporterCfg) (db : DBConn) (d : ℚ)
    (h : db.runStats = .error ()) :
    collectRethinkStats e db = (1, [], []) ∧
    Collect e db d = [⟨.scrapeErrors, 1, []⟩, ⟨.scrapeLatency, d, []⟩] := by
  have h1 : collectRethinkStats e db = (1, [], []) := by
    unfold collectRethinkStats
    rw [h]
  refine ⟨h1, ?_⟩
  unfold Collect
  rw [h1]
  norm_num

/-- Witness for claim C4 at a database whose base query fails to open. -/
theorem base_query_open_failure_witness :
    collectRethinkStats cfgT dbOpenFail = (1, [], []) ∧
    Collect cfgT dbOpenFail 0 = [⟨.scrapeErrors, 1, []⟩, ⟨.scrapeLatency, 0, []⟩] :=
  base_query_open_failure cfgT dbOpenFail 0 rfl

/-- Claim C5: a record whose identity tuple is empty or whose first element
is none of the four known kinds makes the classifier return an error and
emit no samples, and the streaming loop counts exactly one more error while
continuing with the remaining records unchanged. -/
theorem unknown_kind_counted_continues (e : ExporterCfg) (s : stat) (rest : List CursorItem)
    (h : s.ID = [] ∨ ∃ hd tl, s.ID = hd :: tl ∧
      hd ≠ "cluster" ∧ hd ≠ "server" ∧ hd ≠ "table" ∧ hd ≠ "table_server") :
    (∃ msg, processStat e s = .error msg) ∧
    streamLoop e (.ok s :: rest) =
      ((streamLoop e rest).1 + 1, (streamLoop e rest).2.1,
       (streamLoop e rest).2.2.1, (streamLoop e rest).2.2.2) := by
  have herr : ∃ msg, processStat e s = .error msg := by
    rcases h with h | ⟨hd, tl, hid, h1, h2, h3, h4⟩
    · exact ⟨"unexpected empty stat id", by simp [processStat, h]⟩
    · exact ⟨"unexpected stat id: " ++ hd, by simp [processStat, hid, h1, h2, h3, h4]⟩
  obtain ⟨msg, hmsg⟩ := herr
  refine ⟨⟨msg, hmsg⟩, ?_⟩
  simp [streamLoop, hmsg]

/-- Witness for claim C5 at a record with unrecognized kind `bogus`
followed by an empty remainder of the stream. -/
theorem unknown_kind_counted_continues_witness :
    (∃ msg, processStat cfgT statBogus = .error msg) ∧
    streamLoop cfgT (.ok statBogus :: []) =
      ((streamLoop cfgT []).1 + 1, (streamLoop cfgT []).2.1,
       (streamLoop cfgT []).2.2.1, (streamLoop cfgT []).2.2.2) :=
  unknown_kind_counted_continues cfgT statBogus []
    (Or.inr ⟨"bogus", [], rfl, by decide, by decide, by decide, by decide⟩)

/-- Claim C6: a successful enrichment fetch emits the `tableRowsCount`
sample whose value is the arithmetic sum of the returned per-shard-replica
estimates (the source computes it with a running-sum loop), labeled by the
database and table of the lookup. -/
theorem table_rows_count_is_sum (db : DBConn) (d t : String) (ests : List ℚ)
    (h : db.tableInfo d t = .ok ests) :
    runTask db (d, t) = .ok ⟨.tableRowsCount, ests.sum, [d, t]⟩ := by
  simp only [runTask, h, List.sum_eq_foldl]

/-- Witness for claim C6 at a lookup returning estimates `[3, 5, 4]`, whose
sum is 12. -/
theorem table_rows_count_is_sum_witness :
    runTask dbEstimates ("d1", "t1") =
      .ok ⟨.tableRowsCount, ([3, 5, 4] : List ℚ).sum, ["d1", "t1"]⟩ ∧
    ([3, 5, 4] : List ℚ).sum = 12 :=
  ⟨table_rows_count_is_sum dbEstimates "d1" "t1" [3, 5, 4] rfl, by norm_num⟩

/-- Claim C7: a record whose identity tuple starts with `cluster` emits
exactly one client-connections sample with no labels and exactly two
docs-per-sec samples — one labeled `read` carrying the read-docs counter,
one labeled `written` carrying the written-docs counter — and every label
list is empty or one of the two operation constants (no server, database or
table label values). -/
theorem cluster_stat_three_samples (e : ExporterCfg) (s : stat) (tl : List String)
    (h : s.ID = "cluster" :: tl) :
    processStat e s = .ok (processClusterStat s, []) ∧
    processClusterStat s =
      [⟨.clusterClientConnections, s.QueryEngine.ClientConnections, []⟩,
       ⟨.clusterDocsPerSecond, s.QueryEngine.ReadDocsPerSec, [readOperation]⟩,
       ⟨.clusterDocsPerSecond, s.QueryEngine.WrittenDocsPerSec, [writtenOperation]⟩] ∧
    ((processClusterStat s).filter
        (fun m => m.desc == MetricDesc.clusterClientConnections)).length = 1 ∧
    ((processClusterStat s).filter
        (fun m => m.desc == MetricDesc.clusterDocsPerSecond)).length = 2 ∧
    ∀ m ∈ processClusterStat s,
      m.labels = [] ∨ m.labels = [readOperation] ∨ m.labels = [writtenOperation] := by
  refine ⟨by simp [processStat, h], rfl, rfl, rfl, ?_⟩
  intro m hm
  simp only [processClusterStat, List.mem_cons, List.not_mem_nil, or_false] at hm
  rcases hm with h1 | h1 | h1 <;> subst h1
  · exact Or.inl rfl
  · exact Or.inr (Or.inl rfl)
  · exact Or.inr (Or.inr rfl)

/-- Witness for claim C7 at a concrete cluster record. -/
theorem cluster_stat_three_samples_witness :
    processStat cfgF statCluster = .ok (processClusterStat statCluster, []) ∧
    processClusterStat statCluster =
      [⟨.clusterClientConnections, statCluster.QueryEngine.ClientConnections, []⟩,
       ⟨.clusterDocsPerSecond, statCluster.QueryEngine.ReadDocsPerSec, [readOperation]⟩,
       ⟨.clusterDocsPerSecond, statCluster.QueryEngine.WrittenDocsPerSec, [writtenOperation]⟩] ∧
    ((processClusterStat statCluster).filter
        (fun m => m.desc == MetricDesc.clusterClientConnections)).length = 1 ∧
    ((processClusterStat statCluster).filter
        (fun m => m.desc == MetricDesc.clusterDocsPerSecond)).length = 2 ∧
    ∀ m ∈ processClusterStat statCluster,
      m.labels = [] ∨ m.labels = [readOperation] ∨ m.labels = [writtenOperation] :=
  cluster_stat_three_samples cfgF statCluster [] rfl

/-- Claim C8: every cycle's output is its data samples — none of which uses
a meta-metric descriptor — followed by exactly the two meta-metrics, errors
then latency, as the last emissions; a cycle over zero records emits
exactly the two meta-metrics with error count 0 and a nonnegative
duration. -/
theorem meta_metrics_last_and_empty_cycle (e : ExporterCfg) (db : DBConn) (d : ℚ)
    (hd : 0 ≤ d) :
    (∃ ms, Collect e db d =
        ms ++ [⟨.scrapeErrors, ((collectRethinkStats e db).1 : ℚ), []⟩,
               ⟨.scrapeLatency, d, []⟩] ∧
      ∀ m ∈ ms, m.desc ≠ MetricDesc.scrapeErrors ∧ m.desc ≠ MetricDesc.scrapeLatency) ∧
    (db.runStats = .ok ⟨false, []⟩ →
      Collect e db d = [⟨.scrapeErrors, 0, []⟩, ⟨.scrapeLatency, d, []⟩] ∧ 0 ≤ d) := by
  constructor
  · exact ⟨(collectRethinkStats e db).2.1, rfl, collectRethinkStats_no_meta e db⟩
  · intro h
    have h1 : collectRethinkStats e db = (0, [], []) := by
      unfold collectRethinkStats
      rw [h]
      rfl
    refine ⟨?_, hd⟩
    unfold Collect
    rw [h1]
    norm_num

/-- Witness for claim C8 at a database whose base query yields zero
records. -/
theorem meta_metrics_last_and_empty_cycle_witness :
    (∃ ms, Collect cfgF dbEmpty 0 =
        ms ++ [⟨.scrapeErrors, ((collectRethinkStats cfgF dbEmpty).1 : ℚ), []⟩,
               ⟨.scrapeLatency, 0, []⟩] ∧
      ∀ m ∈ ms, m.desc ≠ MetricDesc.scrapeErrors ∧ m.desc ≠ MetricDesc.scrapeLatency) ∧
    (dbEmpty.runStats = .ok ⟨false, []⟩ →
      Collect cfgF dbEmpty 0 = [⟨.scrapeErrors, 0, []⟩, ⟨.scrapeLatency, 0, []⟩] ∧ (0 : ℚ) ≤ 0) :=
  meta_metrics_last_and_empty_cycle cfgF dbEmpty 0 le_rfl

/-- Claim C9: two collection cycles over the same underlying statistics
data produce the same samples apart from the two trailing meta-metrics:
the data prefixes are equal, and the descriptor and label sequences of the
full outputs are equal (only the meta values may differ across runs). -/
theorem collect_deterministic_apart_from_meta (e : ExporterCfg) (db : DBConn) (d1 d2 : ℚ) :
    (Collect e db d1).dropLast.dropLast = (Collect e db d2).dropLast.dropLast ∧
    (Collect e db d1).map Metric.desc = (Collect e db d2).map Metric.desc ∧
    (Collect e db d1).map Metric.labels = (Collect e db d2).map Metric.labels := by
  unfold Collect
  refine ⟨?_, ?_, ?_⟩
  · rw [dropLast_two_append, dropLast_two_append]
  · simp
  · simp

/-- Claim C10: the classifier's output depends only on the identity tuple's
first element and the record's other fields — two records that differ only
in the identity-tuple elements after the first are processed
identically. -/
theorem processStat_ignores_id_tail (e : ExporterCfg) (s : stat) (hd : String)
    (t1 t2 : List String) :
    processStat e { s with ID := hd :: t1 } = processStat e { s with ID := hd :: t2 } := by
  unfold processStat
  dsimp only
  split_ifs <;> rfl

end RethinkdbExporter
